import Mathlib

/-!
Verification development for the fm-case-service hybrid persistence layer.

The development shallowly embeds the repository implementations of
`src/case_service/infrastructure/persistence/case_repository.py`
(`InMemoryCaseRepository`, `PostgreSQLCaseRepository`) and
`src/case_service/infrastructure/persistence/postgresql_hybrid_case_repository.py`
(`PostgreSQLHybridCaseRepository`), together with the table shapes of the
Alembic migration `20250208_initial_hybrid_schema.py`.

Modelling conventions:
- instants (Python `datetime`) are `Nat`;
- SQL `NULL`-able columns are `Option`;
- JSON (de)serialisation of an embedded sub-object
  (`json.dumps(x.model_dump())` on write, `T(**json.loads(s))` on read)
  is the identity at this abstraction, so an embedded JSONB column holds
  `Option T` directly;
- a table is a `List` of row structures; `INSERT ... ON CONFLICT (pk) DO
  UPDATE SET cols` is an upsert keyed on the primary key that overwrites
  exactly the listed columns;
- `metadata` columns, which the repository always writes as the constant
  `{}`, are omitted from the row structures;
- the effects of single SQL statements are modelled; table constraints are
  modelled only where the repository relies on them (the conflict targets
  of the upserts, and the `case_messages.case_id` foreign key).
-/

/-- Case lifecycle status (`case_status` enum of the hybrid migration; the
string value round-trips through `case.status.value` / `CaseStatus(row.status)`). -/
inductive CaseStatus where
  | consulting
  | investigating
  | resolved
  | closed
  deriving DecidableEq

/-- Hypothesis lifecycle status (`hypothesis_status` enum of the migration). -/
inductive HypothesisStatus where
  | proposed
  | testing
  | validated
  | invalidated
  | deferred
  deriving DecidableEq

/-- Modelled from the spec: `ConsultingData` of `fm_core_lib.models.case`
(not under `src/`); fields per spec section 3, defaults per the migration's
server default for the `consulting` column. -/
structure ConsultingData where
  initial_description : String := ""
  context : List (String × String) := []
  user_goals : List String := []
  deriving DecidableEq

/-- Modelled from the spec: `DocumentationData` of `fm_core_lib.models.case`. -/
structure DocumentationData where
  summary : String := ""
  timeline : List String := []
  lessons_learned : List String := []
  deriving DecidableEq

/-- Modelled from the spec: `InvestigationProgress` of `fm_core_lib.models.case`. -/
structure InvestigationProgress where
  current_phase : String := "consulting"
  completion_percentage : Nat := 0
  milestones : List String := []
  deriving DecidableEq

/-- Modelled from the spec: `ProblemVerification`; the repository round-trips
it verbatim, so its payload is opaque here. -/
structure ProblemVerification where
  content : String
  deriving DecidableEq

/-- Modelled from the spec: `WorkingConclusion`; opaque payload. -/
structure WorkingConclusion where
  content : String
  deriving DecidableEq

/-- Modelled from the spec: `RootCauseConclusion`; opaque payload. -/
structure RootCauseConclusion where
  content : String
  deriving DecidableEq

/-- Modelled from the spec: `PathSelection`; opaque payload. -/
structure PathSelection where
  content : String
  deriving DecidableEq

/-- Modelled from the spec: `DegradedMode`; opaque payload. -/
structure DegradedMode where
  content : String
  deriving DecidableEq

/-- Modelled from the spec: `EscalationState`; opaque payload. -/
structure EscalationState where
  content : String
  deriving DecidableEq

/-- Modelled from the spec: `CaseStatusTransition` of `fm_core_lib.models.case`
(`from_status`, `to_status`, `reason`, and a timestamp, read as
`transition.timestamp` by the hybrid repository). -/
structure CaseStatusTransition where
  from_status : Option CaseStatus := none
  to_status : CaseStatus
  reason : Option String := none
  timestamp : Nat := 0
  deriving DecidableEq

/-- Modelled from the spec: the `Evidence` domain object of
`fm_core_lib.models.case`; field names follow the attributes the hybrid
repository reads (`data_type`, `storage_ref`, `timestamp`, ...). -/
structure Evidence where
  evidence_id : String
  data_type : String := "UNKNOWN"
  summary : String := ""
  preprocessed_content : Option String := none
  storage_ref : Option String := none
  file_size : Option Nat := none
  filename : Option String := none
  timestamp : Nat := 0
  deriving DecidableEq

/-- Modelled from the spec: the `Hypothesis` domain object; field names follow
the attributes the hybrid repository reads (`hypothesis`, `confidence`,
`evidence`, `validation_result`, `validated_at`, `proposed_at`) plus the
`status` field of spec section 3. -/
structure Hypothesis where
  hypothesis : String := ""
  status : HypothesisStatus := .proposed
  confidence : Option ℚ := none
  evidence : List String := []
  validation_result : Option String := none
  validated_at : Option Nat := none
  proposed_at : Nat := 0
  deriving DecidableEq

/-- Modelled from the spec: the `Solution` domain object; field names follow
the attributes the hybrid repository reads (`solution_id`, `description`,
`steps`, `risk_level`, `effort`). -/
structure Solution where
  solution_id : String
  description : String := ""
  steps : List String := []
  risk_level : Option String := none
  effort : Option String := none
  deriving DecidableEq

/-- Modelled from the spec: the `UploadedFile` domain object; field names per
spec section 3 (they match the `uploaded_files` upsert parameters exactly). -/
structure UploadedFile where
  file_id : String
  filename : String := ""
  size_bytes : Nat := 0
  data_type : String := ""
  uploaded_at_turn : Nat := 0
  uploaded_at : Nat := 0
  source_type : String := ""
  content_ref : Option String := none
  preprocessing_summary : Option String := none
  deriving DecidableEq

/-- Modelled from the spec: one conversation message (a plain dict in the
source; only the keys the repositories touch are modelled). -/
structure Message where
  message_id : String := ""
  role : String := "user"
  content : String := ""
  deriving DecidableEq

/-- Modelled from the spec: the `Case` aggregate root of
`fm_core_lib.models.case` (not under `src/`); fields per spec section 3 and
the attributes accessed by the repositories under `src/`. The `hypotheses`
dict is an association list (Python dicts preserve insertion order). -/
structure Case where
  case_id : String
  user_id : String := ""
  organization_id : Option String := none
  title : String := ""
  description : Option String := none
  status : CaseStatus := .consulting
  status_history : List CaseStatusTransition := []
  closure_reason : Option String := none
  progress : InvestigationProgress := {}
  current_turn : Nat := 0
  turns_without_progress : Nat := 0
  turn_history : List String := []
  path_selection : Option PathSelection := none
  investigation_strategy : Option String := none
  consulting : ConsultingData := {}
  problem_verification : Option ProblemVerification := none
  uploaded_files : List UploadedFile := []
  evidence : List Evidence := []
  hypotheses : List (String × Hypothesis) := []
  solutions : List Solution := []
  working_conclusion : Option WorkingConclusion := none
  root_cause_conclusion : Option RootCauseConclusion := none
  degraded_mode : Option DegradedMode := none
  escalation_state : Option EscalationState := none
  documentation : DocumentationData := {}
  messages : List Message := []
  message_count : Nat := 0
  created_at : Nat := 0
  updated_at : Nat := 0
  last_activity_at : Option Nat := none
  resolved_at : Option Nat := none
  closed_at : Option Nat := none
  deriving DecidableEq

/-- Row of the hybrid `cases` table (migration `20250208_initial_hybrid_schema`).
The schema declares `organization_id` NOT NULL with no default, and
`_upsert_case_record` never writes that column: the insert arm of the upsert
therefore raises a NOT NULL violation in the real database, so a fresh row
can only predate the hybrid repository (legacy writer, migration seeding, or
a manual insert). The column is kept as `Option` so such pre-existing rows
and the untouched-on-update behaviour can both be expressed;
`upsertCaseRecordChecked` models the constraint itself. -/
structure CaseRow where
  case_id : String
  user_id : String := ""
  organization_id : Option String := none
  title : String := ""
  status : CaseStatus := .consulting
  created_at : Nat := 0
  updated_at : Nat := 0
  last_activity_at : Option Nat := none
  resolved_at : Option Nat := none
  closed_at : Option Nat := none
  consulting : Option ConsultingData := none
  problem_verification : Option ProblemVerification := none
  working_conclusion : Option WorkingConclusion := none
  root_cause_conclusion : Option RootCauseConclusion := none
  path_selection : Option PathSelection := none
  degraded_mode : Option DegradedMode := none
  escalation_state : Option EscalationState := none
  documentation : Option DocumentationData := none
  progress : Option InvestigationProgress := none
  current_turn : Nat := 0
  turns_without_progress : Nat := 0
  deriving DecidableEq

/-- Row of the hybrid `evidence` table (primary key `evidence_id`). -/
structure EvidenceRow where
  evidence_id : String
  case_id : String
  category : String
  summary : String
  preprocessed_content : String
  content_ref : Option String := none
  file_size : Option Nat := none
  filename : Option String := none
  upload_timestamp : Nat := 0
  deriving DecidableEq

/-- Row of the hybrid `hypotheses` table (primary key `hypothesis_id`). -/
structure HypothesisRow where
  hypothesis_id : String
  case_id : String
  description : String
  status : HypothesisStatus
  confidence_score : Option ℚ := none
  supporting_evidence_ids : List String := []
  validation_result : Option String := none
  validation_timestamp : Option Nat := none
  proposed_at : Nat := 0
  updated_at : Nat := 0
  deriving DecidableEq

/-- Row of the hybrid `solutions` table (primary key `solution_id`); `status`
is kept as the raw enum string the repository writes. -/
structure SolutionRow where
  solution_id : String
  case_id : String
  description : String
  status : String
  implementation_steps : List String := []
  risk_level : Option String := none
  estimated_effort : Option String := none
  verification_result : Option String := none
  verification_timestamp : Option Nat := none
  proposed_at : Nat := 0
  implemented_at : Option Nat := none
  updated_at : Nat := 0
  deriving DecidableEq

/-- Row of the hybrid `uploaded_files` table (primary key `file_id`). -/
structure FileRow where
  file_id : String
  case_id : String
  filename : String
  size_bytes : Nat
  data_type : String
  uploaded_at_turn : Nat
  uploaded_at : Nat
  source_type : String
  content_ref : Option String := none
  preprocessing_summary : Option String := none
  deriving DecidableEq

/-- Row of the hybrid `case_status_transitions` table. Its only uniqueness
constraint in the migration is the autoincrement surrogate primary key
`transition_id`; there is no unique constraint over the payload columns. -/
structure TransitionRow where
  transition_id : Nat
  case_id : String
  from_status : Option CaseStatus
  to_status : CaseStatus
  reason : Option String := none
  transitioned_at : Nat := 0
  deriving DecidableEq

/-- Row of the hybrid `case_messages` table (primary key `message_id`,
foreign key `case_id` into `cases`). -/
structure MessageRow where
  message_id : String
  case_id : String
  role : String
  content : String
  deriving DecidableEq

/-- State of the hybrid database: one list per table, plus the autoincrement
counter backing `case_status_transitions.transition_id`. -/
structure HybridDB where
  cases : List CaseRow := []
  evidence : List EvidenceRow := []
  hypotheses : List HypothesisRow := []
  solutions : List SolutionRow := []
  uploaded_files : List FileRow := []
  case_status_transitions : List TransitionRow := []
  case_messages : List MessageRow := []
  next_transition_id : Nat := 1
  deriving DecidableEq

/-- The empty hybrid database. -/
def HybridDB.empty : HybridDB := {}

/-- Semantics of `INSERT ... ON CONFLICT (pk) DO UPDATE`: if a row with the
same key exists it is merged in place (the merge overwrites exactly the
columns of the `SET` list), otherwise the new row is appended. -/
def upsertBy (key : ρ → String) (merge : ρ → ρ → ρ) (r : ρ) : List ρ → List ρ
  | [] => [r]
  | x :: xs => if key x = key r then merge x r :: xs else x :: upsertBy key merge r xs

/-- `PostgreSQLHybridCaseRepository._upsert_case_record`: upsert of the root
`cases` row keyed on `case_id`. The insert writes `case_id, user_id, title,
status, created_at, updated_at` and the nine embedded JSONB columns; columns
absent from the statement (`organization_id`, `last_activity_at`,
`resolved_at`, `closed_at`, `current_turn`, `turns_without_progress`) take
their schema defaults on insert — but `organization_id` has none and is NOT
NULL, so the insert arm actually raises (see `upsertCaseRecordChecked`).
The `DO UPDATE SET` list overwrites everything written except `created_at`.
This definition is the row the statement carries. -/
def caseRecordRow (c : Case) (now : Nat) : CaseRow :=
  { case_id := c.case_id
    user_id := c.user_id
    title := c.title
    status := c.status
    created_at := c.created_at
    updated_at := now
    consulting := some c.consulting
    problem_verification := c.problem_verification
    working_conclusion := c.working_conclusion
    root_cause_conclusion := c.root_cause_conclusion
    path_selection := c.path_selection
    degraded_mode := c.degraded_mode
    escalation_state := c.escalation_state
    documentation := some c.documentation
    progress := some c.progress }

/-- The row effect of the `_upsert_case_record` statement when it does not
raise: insert `caseRecordRow`, or on conflict overwrite the `SET` columns.
The insert arm only completes in a database that does not enforce the
`organization_id` NOT NULL constraint; `upsertCaseRecordChecked` adds the
constraint, and the failure of any step is injected in `runFlushedSteps`. -/
def upsertCaseRecord (c : Case) (now : Nat) (db : HybridDB) : HybridDB :=
  let row : CaseRow := caseRecordRow c now
  let merge : CaseRow → CaseRow → CaseRow := fun old new =>
    { old with
      user_id := new.user_id
      title := new.title
      status := new.status
      updated_at := new.updated_at
      consulting := new.consulting
      problem_verification := new.problem_verification
      working_conclusion := new.working_conclusion
      root_cause_conclusion := new.root_cause_conclusion
      path_selection := new.path_selection
      degraded_mode := new.degraded_mode
      escalation_state := new.escalation_state
      documentation := new.documentation
      progress := new.progress }
  { db with cases := upsertBy (·.case_id) merge row db.cases }

/-- Serialisation of one `Evidence` item into an `evidence` row, per the
parameter dict of `_upsert_evidence` (`category` is `evidence.data_type`,
`preprocessed_content` is `evidence.preprocessed_content or ""`,
`content_ref` is `evidence.storage_ref`). -/
def evidenceToRow (cid : String) (e : Evidence) : EvidenceRow :=
  { evidence_id := e.evidence_id
    case_id := cid
    category := e.data_type
    summary := e.summary
    preprocessed_content := e.preprocessed_content.getD ""
    content_ref := e.storage_ref
    file_size := e.file_size
    filename := e.filename
    upload_timestamp := e.timestamp }

/-- `PostgreSQLHybridCaseRepository._upsert_evidence`: when the in-memory list
is non-empty, delete rows of this case whose id is absent from it (the source
guards the DELETE with `if current_ids:`, so nothing is deleted when the list
is empty); then upsert every item, the `DO UPDATE SET` list covering only
`category, summary, preprocessed_content, content_ref`. -/
def upsertEvidence (cid : String) (evs : List Evidence) (db : HybridDB) : HybridDB :=
  let ids := evs.map (·.evidence_id)
  let afterDelete :=
    if ids.isEmpty then db.evidence
    else db.evidence.filter (fun r => !(r.case_id == cid) || ids.contains r.evidence_id)
  let merge : EvidenceRow → EvidenceRow → EvidenceRow := fun old new =>
    { old with
      category := new.category
      summary := new.summary
      preprocessed_content := new.preprocessed_content
      content_ref := new.content_ref }
  { db with
    evidence := evs.foldl (fun t e => upsertBy (·.evidence_id) merge (evidenceToRow cid e) t) afterDelete }

/-- Serialisation of one hypothesis dict entry into a `hypotheses` row, per
the parameter dict of `_upsert_hypotheses`. The source passes the literal
string `"proposed"` for `status` (commented `# Default status`) instead of the
hypothesis's own status. -/
def hypothesisToRow (cid : String) (now : Nat) (kv : String × Hypothesis) : HypothesisRow :=
  { hypothesis_id := kv.1
    case_id := cid
    description := kv.2.hypothesis
    status := .proposed
    confidence_score := kv.2.confidence
    supporting_evidence_ids := kv.2.evidence
    validation_result := kv.2.validation_result
    validation_timestamp := kv.2.validated_at
    proposed_at := kv.2.proposed_at
    updated_at := now }

/-- `PostgreSQLHybridCaseRepository._upsert_hypotheses`: same differential
pattern as evidence (DELETE guarded by `if current_ids:`); the
`DO UPDATE SET` list covers every written column except `proposed_at`. -/
def upsertHypotheses (cid : String) (hs : List (String × Hypothesis)) (now : Nat)
    (db : HybridDB) : HybridDB :=
  let ids := hs.map (·.1)
  let afterDelete :=
    if ids.isEmpty then db.hypotheses
    else db.hypotheses.filter (fun r => !(r.case_id == cid) || ids.contains r.hypothesis_id)
  let merge : HypothesisRow → HypothesisRow → HypothesisRow := fun old new =>
    { old with
      description := new.description
      status := new.status
      confidence_score := new.confidence_score
      supporting_evidence_ids := new.supporting_evidence_ids
      validation_result := new.validation_result
      validation_timestamp := new.validation_timestamp
      updated_at := new.updated_at }
  { db with
    hypotheses := hs.foldl (fun t kv => upsertBy (·.hypothesis_id) merge (hypothesisToRow cid now kv) t) afterDelete }

/-- Serialisation of one `Solution` into a `solutions` row, per the parameter
dict of `_upsert_solutions` (`status` is again the literal `"proposed"`,
`verification_result`/`verification_timestamp`/`implemented_at` are `None`,
`proposed_at` and `updated_at` are the current time). -/
def solutionToRow (cid : String) (now : Nat) (s : Solution) : SolutionRow :=
  { solution_id := s.solution_id
    case_id := cid
    description := s.description
    status := "proposed"
    implementation_steps := s.steps
    risk_level := s.risk_level
    estimated_effort := s.effort
    proposed_at := now
    updated_at := now }

/-- `PostgreSQLHybridCaseRepository._upsert_solutions`: differential pattern
with the same `if current_ids:` guard; the `DO UPDATE SET` list covers every
written column except `proposed_at`. -/
def upsertSolutions (cid : String) (sols : List Solution) (now : Nat) (db : HybridDB) : HybridDB :=
  let ids := sols.map (·.solution_id)
  let afterDelete :=
    if ids.isEmpty then db.solutions
    else db.solutions.filter (fun r => !(r.case_id == cid) || ids.contains r.solution_id)
  let merge : SolutionRow → SolutionRow → SolutionRow := fun old new =>
    { old with
      description := new.description
      status := new.status
      implementation_steps := new.implementation_steps
      risk_level := new.risk_level
      estimated_effort := new.estimated_effort
      verification_result := new.verification_result
      verification_timestamp := new.verification_timestamp
      implemented_at := new.implemented_at
      updated_at := new.updated_at }
  { db with
    solutions := sols.foldl (fun t s => upsertBy (·.solution_id) merge (solutionToRow cid now s) t) afterDelete }

/-- Serialisation of one `UploadedFile` into an `uploaded_files` row (field
names of the parameter dict match the domain object exactly). -/
def fileToRow (cid : String) (f : UploadedFile) : FileRow :=
  { file_id := f.file_id
    case_id := cid
    filename := f.filename
    size_bytes := f.size_bytes
    data_type := f.data_type
    uploaded_at_turn := f.uploaded_at_turn
    uploaded_at := f.uploaded_at
    source_type := f.source_type
    content_ref := f.content_ref
    preprocessing_summary := f.preprocessing_summary }

/-- `PostgreSQLHybridCaseRepository._upsert_uploaded_files`: differential
pattern with the same `if current_ids:` guard; the `DO UPDATE SET` list
covers every written column except `uploaded_at`. -/
def upsertUploadedFiles (cid : String) (fs : List UploadedFile) (db : HybridDB) : HybridDB :=
  let ids := fs.map (·.file_id)
  let afterDelete :=
    if ids.isEmpty then db.uploaded_files
    else db.uploaded_files.filter (fun r => !(r.case_id == cid) || ids.contains r.file_id)
  let merge : FileRow → FileRow → FileRow := fun old new =>
    { old with
      filename := new.filename
      size_bytes := new.size_bytes
      data_type := new.data_type
      uploaded_at_turn := new.uploaded_at_turn
      source_type := new.source_type
      content_ref := new.content_ref
      preprocessing_summary := new.preprocessing_summary }
  { db with
    uploaded_files := fs.foldl (fun t f => upsertBy (·.file_id) merge (fileToRow cid f) t) afterDelete }

/-- `PostgreSQLHybridCaseRepository._append_status_transitions`: one
`INSERT ... ON CONFLICT DO NOTHING` per transition. The migration gives
`case_status_transitions` no uniqueness constraint other than the
autoincrement surrogate key, so the conflict clause never fires and every
insert lands as a fresh row. -/
def appendStatusTransitions (cid : String) (ts : List CaseStatusTransition)
    (db : HybridDB) : HybridDB :=
  ts.foldl
    (fun d t =>
      { d with
        case_status_transitions := d.case_status_transitions ++
          [{ transition_id := d.next_transition_id
             case_id := cid
             from_status := t.from_status
             to_status := t.to_status
             reason := t.reason
             transitioned_at := t.timestamp }]
        next_transition_id := d.next_transition_id + 1 })
    db

/-- The six write steps of `PostgreSQLHybridCaseRepository.save`, in source
order (the status-transition step is guarded by `if case.status_history:`). -/
def hybridSaveSteps (c : Case) (now : Nat) : List (HybridDB → HybridDB) :=
  [ upsertCaseRecord c now
  , upsertEvidence c.case_id c.evidence
  , fun db => upsertHypotheses c.case_id c.hypotheses now db
  , fun db => upsertSolutions c.case_id c.solutions now db
  , upsertUploadedFiles c.case_id c.uploaded_files
  , fun db => if c.status_history.isEmpty then db else appendStatusTransitions c.case_id c.status_history db ]

/-- `PostgreSQLHybridCaseRepository.save` on the success path: sets
`case.updated_at` to the current time, runs the six write steps, and returns
the (mutated) aggregate. -/
def hybridSave (db : HybridDB) (c : Case) (now : Nat) : HybridDB × Case :=
  ((hybridSaveSteps c now).foldl (fun d f => f d) db, { c with updated_at := now })

/-- Deserialisation of an `evidence` row back into the domain object, per the
JSON object built by the `get` query and the reconstruction in
`_row_to_case` (`data_type` from `category`, `storage_ref` from
`content_ref`, `timestamp` from `upload_timestamp`). -/
def rowToEvidence (r : EvidenceRow) : Evidence :=
  { evidence_id := r.evidence_id
    data_type := r.category
    summary := r.summary
    preprocessed_content := some r.preprocessed_content
    storage_ref := r.content_ref
    file_size := r.file_size
    filename := r.filename
    timestamp := r.upload_timestamp }

/-- Deserialisation of a `hypotheses` row back into a keyed hypothesis, per
the re-keying `{h['hypothesis_id']: Hypothesis(**h) ...}` in `_row_to_case`. -/
def rowToHypothesis (r : HypothesisRow) : String × Hypothesis :=
  (r.hypothesis_id,
    { hypothesis := r.description
      status := r.status
      confidence := r.confidence_score
      evidence := r.supporting_evidence_ids
      validation_result := r.validation_result
      validated_at := r.validation_timestamp
      proposed_at := r.proposed_at })

/-- Deserialisation of a `solutions` row back into the domain object. -/
def rowToSolution (r : SolutionRow) : Solution :=
  { solution_id := r.solution_id
    description := r.description
    steps := r.implementation_steps
    risk_level := r.risk_level
    effort := r.estimated_effort }

/-- Deserialisation of an `uploaded_files` row back into the domain object. -/
def rowToFile (r : FileRow) : UploadedFile :=
  { file_id := r.file_id
    filename := r.filename
    size_bytes := r.size_bytes
    data_type := r.data_type
    uploaded_at_turn := r.uploaded_at_turn
    uploaded_at := r.uploaded_at
    source_type := r.source_type
    content_ref := r.content_ref
    preprocessing_summary := r.preprocessing_summary }

/-- `PostgreSQLHybridCaseRepository._row_to_case`: rebuild the aggregate from
the joined row. NULL always-present embedded columns fall back to the type
default, nullable ones to `none`; and the fields the hybrid schema does not
store come back hard-coded (`description=None`, `status_history=[]`,
`current_turn=0`, `turns_without_progress=0`, `turn_history=[]`,
`investigation_strategy=None`, `closure_reason=None`), `messages` and
`message_count` are simply not passed (domain defaults), and
`organization_id`/`last_activity_at`/`resolved_at`/`closed_at` are read from
row attributes the upsert never writes. -/
def hybridRowToCase (r : CaseRow) (evs : List Evidence) (hyps : List (String × Hypothesis))
    (sols : List Solution) (files : List UploadedFile) : Case :=
  { case_id := r.case_id
    user_id := r.user_id
    organization_id := r.organization_id
    title := r.title
    description := none
    status := r.status
    status_history := []
    closure_reason := none
    progress := r.progress.getD {}
    current_turn := 0
    turns_without_progress := 0
    turn_history := []
    path_selection := r.path_selection
    investigation_strategy := none
    consulting := r.consulting.getD {}
    problem_verification := r.problem_verification
    uploaded_files := files
    evidence := evs
    hypotheses := hyps
    solutions := sols
    working_conclusion := r.working_conclusion
    root_cause_conclusion := r.root_cause_conclusion
    degraded_mode := r.degraded_mode
    escalation_state := r.escalation_state
    documentation := r.documentation.getD {}
    messages := []
    message_count := 0
    created_at := r.created_at
    updated_at := r.updated_at
    last_activity_at := r.last_activity_at
    resolved_at := r.resolved_at
    closed_at := r.closed_at }

/-- `PostgreSQLHybridCaseRepository.get`: the single joined query selects the
`cases` row for `case_id` with the child rows of each normalized table
aggregated per case, or returns `None` when no row matches. -/
def hybridGet (db : HybridDB) (cid : String) : Option Case :=
  (db.cases.find? (·.case_id == cid)).map fun r =>
    hybridRowToCase r
      ((db.evidence.filter (·.case_id == cid)).map rowToEvidence)
      ((db.hypotheses.filter (·.case_id == cid)).map rowToHypothesis)
      ((db.solutions.filter (·.case_id == cid)).map rowToSolution)
      ((db.uploaded_files.filter (·.case_id == cid)).map rowToFile)

/-- Stable descending insertion on a `Nat` sort key: the new element goes
after every element with a greater-or-equal key, modelling both Python's
stable `list.sort(..., reverse=True)` and SQL `ORDER BY key DESC`. -/
def insertDescBy (key : ρ → Nat) (x : ρ) : List ρ → List ρ
  | [] => [x]
  | y :: ys => if key x < key y then y :: insertDescBy key x ys else x :: y :: ys

/-- Stable descending sort on a `Nat` sort key. -/
def sortDescBy (key : ρ → Nat) : List ρ → List ρ
  | [] => []
  | x :: xs => insertDescBy key x (sortDescBy key xs)

/-- Truthiness of an optional string filter argument: Python's
`if user_id:` skips the filter both for `None` and for the empty string. -/
def optActive (o : Option String) : Bool :=
  !(o.getD "").isEmpty

/-- The dynamic WHERE clause of the hybrid `list` (equality filters on
`user_id`, `organization_id` and `status`, each applied only when the
argument is truthy). -/
def caseRowMatches (u o : Option String) (st : Option CaseStatus) (r : CaseRow) : Bool :=
  (!optActive u || r.user_id == u.getD "") &&
  (!optActive o || r.organization_id == some (o.getD "")) &&
  (st.all fun s => r.status == s)

/-- `PostgreSQLHybridCaseRepository.list`: count the matching rows, page the
matching `case_id`s ordered by `updated_at DESC` with `LIMIT`/`OFFSET`, then
hydrate each id through `get`, dropping ids `get` does not find. -/
def hybridList (db : HybridDB) (u o : Option String) (st : Option CaseStatus)
    (limit offset : Nat) : List Case × Nat :=
  let filtered := db.cases.filter (caseRowMatches u o st)
  let total := filtered.length
  let pageIds := (((sortDescBy (·.updated_at) filtered).drop offset).take limit).map (·.case_id)
  (pageIds.filterMap (hybridGet db), total)

/-- ASCII lower-casing of one character, modelling Python's `str.lower()`
on the identifiers and titles the repositories compare. -/
def lowerChar (c : Char) : Char :=
  if 65 ≤ c.toNat && c.toNat ≤ 90 then Char.ofNat (c.toNat + 32) else c

/-- Python's `str.lower()` as a character list. -/
def lowerStr (s : String) : List Char :=
  s.data.map lowerChar

/-- Whether the second list is a leading segment of the first. -/
def startsWithChars : List Char → List Char → Bool
  | _, [] => true
  | [], _ :: _ => false
  | a :: as, b :: bs => a == b && startsWithChars as bs

/-- Python's `needle in haystack` substring test over character lists (the
empty needle matches everything, as in Python). -/
def strContains : List Char → List Char → Bool
  | h, n =>
    if startsWithChars h n then true
    else
      match h with
      | [] => false
      | _ :: t => strContains t n

/-- The text-match predicate of the hybrid `search` WHERE clause: the
full-text match of `title || ' ' || consulting->>'initial_description'`
against the query, or a full-text match on some evidence row of the case
(`tsvector @@ tsquery` is abstracted to case-insensitive containment). -/
def hybridSearchMatches (db : HybridDB) (q : String) (r : CaseRow) : Bool :=
  strContains (lowerStr (r.title ++ " " ++ ((r.consulting.getD {}).initial_description))) (lowerStr q) ||
  (db.evidence.filter (·.case_id == r.case_id)).any
    (fun e => strContains (lowerStr e.preprocessed_content) (lowerStr q))

/-- The `ts_rank` expression of the hybrid search, abstracted to an indicator
of a title match (the claims do not depend on the ranking function). -/
def hybridRank (q : String) (r : CaseRow) : Nat :=
  if strContains (lowerStr r.title) (lowerStr q) then 1 else 0

/-- `PostgreSQLHybridCaseRepository.search`: select the matching `case_id`s
ordered by rank then `updated_at` descending, truncate to `limit`, hydrate
each through `get` — and return `len(cases)` as the second component (the
source returns `cases, len(cases)`, not a total count). -/
def hybridSearch (db : HybridDB) (q : String) (u o : Option String) (limit : Nat) :
    List Case × Nat :=
  let hits := db.cases.filter fun r =>
    hybridSearchMatches db q r &&
    (!optActive u || r.user_id == u.getD "") &&
    (!optActive o || r.organization_id == some (o.getD ""))
  let ordered := sortDescBy (hybridRank q) (sortDescBy (·.updated_at) hits)
  let cases := ((ordered.take limit).map (·.case_id)).filterMap (hybridGet db)
  (cases, cases.length)

/-- Python-style exception values crossing the repository boundary: either a
raw driver/runtime error, or the repository's own
`RepositoryException`, whose message carries the failing operation, the
relevant case id, and the cause. -/
inductive PyErr where
  | raw (msg : String)
  | repositoryError (op : String) (case_id : Option String) (cause : String)
  deriving DecidableEq

/-- Message text of an exception (what `str(e)` interpolates into a wrapper). -/
def PyErr.render : PyErr → String
  | .raw m => m
  | .repositoryError op _ cause => "Failed to " ++ op ++ ": " ++ cause

instance {ε α : Type} [DecidableEq ε] [DecidableEq α] : DecidableEq (Except ε α) :=
  fun x y =>
    match x, y with
    | .ok a, .ok b =>
      match decEq a b with
      | isTrue h => isTrue (h ▸ rfl)
      | isFalse h => isFalse fun he => h (Except.ok.inj he)
    | .error a, .error b =>
      match decEq a b with
      | isTrue h => isTrue (h ▸ rfl)
      | isFalse h => isFalse fun he => h (Except.error.inj he)
    | .ok _, .error _ => isFalse fun he => Except.noConfusion he
    | .error _, .ok _ => isFalse fun he => Except.noConfusion he

/-- One `db.execute`/driver call that either fails with a raw infrastructure
error or yields its result; the `fail` flag injects the failure. -/
def dbExec (fail : Bool) (v : α) : Except PyErr α :=
  if fail then .error (.raw "connection lost") else .ok v

/-- `PostgreSQLHybridCaseRepository.add_message`: INSERT into `case_messages`.
When the case row does not exist the insert violates the
`case_messages.case_id` foreign key of the migration, and the repository's
`except` clause wraps that raw error into a `RepositoryException` and
re-raises — it does not return `False`. -/
def hybridAddMessage (db : HybridDB) (cid : String) (m : Message) :
    Except PyErr (HybridDB × Bool) :=
  if db.cases.any (·.case_id == cid) then
    .ok ({ db with case_messages := db.case_messages ++
             [{ message_id := m.message_id, case_id := cid, role := m.role, content := m.content }] },
         true)
  else
    .error (.repositoryError "add message to case" (some cid)
      (PyErr.render (.raw "ForeignKeyViolation on case_messages.case_id")))

/-- `PostgreSQLHybridCaseRepository.save` with an injected infrastructure
failure: the body's `try` wraps any raw error into a `RepositoryException`
carrying the operation and the case id, then re-raises. -/
def hybridSaveR (fail : Bool) (db : HybridDB) (c : Case) (now : Nat) :
    Except PyErr HybridDB :=
  match dbExec fail (hybridSave db c now).1 with
  | .ok v => .ok v
  | .error e => .error (.repositoryError ("save case " ++ c.case_id) (some c.case_id) e.render)

/-- `PostgreSQLHybridCaseRepository.get` with an injected infrastructure
failure, wrapped the same way. -/
def hybridGetR (fail : Bool) (db : HybridDB) (cid : String) :
    Except PyErr (Option Case) :=
  match dbExec fail (hybridGet db cid) with
  | .ok v => .ok v
  | .error e => .error (.repositoryError ("get case " ++ cid) (some cid) e.render)

/-- Run a sequence of flushed write steps on the pending transaction state,
aborting (returning `none`) when the step at index `failAt` raises. -/
def runFlushedSteps (failAt : Option Nat) : List (HybridDB → HybridDB) → Nat → HybridDB → Option HybridDB
  | [], _, pending => some pending
  | f :: fs, i, pending =>
    if failAt = some i then none else runFlushedSteps failAt fs (i + 1) (f pending)

/-- `DatabaseClient.get_session` around one `save` call: the repository only
flushes; the session wrapper commits on normal completion and rolls back on
an exception. `failAt = some k` makes the k-th write step raise; the first
component of the result is the committed database state after the request,
the second the surfaced exception, if any. -/
def runSaveRequest (db : HybridDB) (c : Case) (now : Nat) (failAt : Option Nat) :
    HybridDB × Option PyErr :=
  match runFlushedSteps failAt (hybridSaveSteps c now) 0 db with
  | some pending => (pending, none)
  | none => (db, some (.repositoryError ("save case " ++ c.case_id) (some c.case_id) "step failed"))

/-- The `_upsert_case_record` statement with the migration's constraints: the
`cases` schema declares `organization_id` NOT NULL with no default and the
INSERT column list omits it, so the insert arm (no existing row for this
`case_id`) raises a NOT NULL violation; only the `ON CONFLICT (case_id)
DO UPDATE` arm, taken when the row already exists, completes, and it never
touches `organization_id`. -/
def upsertCaseRecordChecked (c : Case) (now : Nat) (db : HybridDB) : Except PyErr HybridDB :=
  if db.cases.any (·.case_id == c.case_id) then .ok (upsertCaseRecord c now db)
  else .error (.raw "NotNullViolation on cases.organization_id")

/-- `PostgreSQLHybridCaseRepository.save` under the migration's constraints:
step 1 is the checked root-row upsert; when it raises, the `except` clause
wraps the raw error into a `RepositoryException` carrying the operation and
case id and re-raises (nothing runs after it, and the session rolls back the
flush-only work); when the root row pre-exists, the remaining steps run as in
`hybridSave`. -/
def hybridSaveChecked (db : HybridDB) (c : Case) (now : Nat) :
    Except PyErr (HybridDB × Case) :=
  match upsertCaseRecordChecked c now db with
  | .error e => .error (.repositoryError ("save case " ++ c.case_id) (some c.case_id) e.render)
  | .ok db1 =>
    let db5 := upsertUploadedFiles c.case_id c.uploaded_files
      (upsertSolutions c.case_id c.solutions now
        (upsertHypotheses c.case_id c.hypotheses now
          (upsertEvidence c.case_id c.evidence db1)))
    let db6 := if c.status_history.isEmpty then db5
      else appendStatusTransitions c.case_id c.status_history db5
    .ok (db6, { c with updated_at := now })

/-- `InMemoryCaseRepository`: a dict from `case_id` to the aggregate, modelled
as an association list in insertion order (Python dicts preserve it;
overwriting a key keeps its position). -/
def memUpsert (c : Case) : List Case → List Case
  | [] => [c]
  | x :: xs => if x.case_id = c.case_id then c :: xs else x :: memUpsert c xs

/-- `InMemoryCaseRepository.save`: stamp `updated_at` and store under
`case_id`. -/
def inMemorySave (store : List Case) (c : Case) (now : Nat) : List Case × Case :=
  let saved := { c with updated_at := now }
  (memUpsert saved store, saved)

/-- `InMemoryCaseRepository.get`: dictionary lookup, `None` when absent. -/
def inMemoryGet (store : List Case) (cid : String) : Option Case :=
  store.find? (·.case_id == cid)

/-- The filter chain of `InMemoryCaseRepository.list` (each filter applied
only when its argument is truthy; the organization filter compares the
optional field against the given string). -/
def caseMatches (u o : Option String) (st : Option CaseStatus) (c : Case) : Bool :=
  (!optActive u || c.user_id == u.getD "") &&
  (!optActive o || c.organization_id == some (o.getD "")) &&
  (st.all fun s => c.status == s)

/-- Sort key of `InMemoryCaseRepository.list`: the case's `last_activity_at`.
The source sorts on the datetime value directly; the model totalises the
absent case with `getD 0` (the field is set on every stored aggregate in
practice). -/
def lastActivityKey (c : Case) : Nat :=
  c.last_activity_at.getD 0

/-- `InMemoryCaseRepository.list`: filter, sort by `last_activity_at`
descending, count before paginating, then slice `[offset : offset+limit]`. -/
def inMemoryList (store : List Case) (u o : Option String) (st : Option CaseStatus)
    (limit offset : Nat) : List Case × Nat :=
  let filtered := sortDescBy lastActivityKey (store.filter (caseMatches u o st))
  (( filtered.drop offset).take limit, filtered.length)

/-- The text-match predicate of `InMemoryCaseRepository.search`:
case-insensitive substring match on title or description (the source calls
`case.description.lower()` unguarded; the model reads the optional field
through `getD ""`). -/
def memSearchMatches (q : String) (c : Case) : Bool :=
  strContains (lowerStr c.title) (lowerStr q) ||
  strContains (lowerStr (c.description.getD "")) (lowerStr q)

/-- The relevance score of `InMemoryCaseRepository.search`: 100 for a title
match plus 10 for a description match. -/
def memRelevance (q : String) (c : Case) : Nat :=
  (if strContains (lowerStr c.title) (lowerStr q) then 100 else 0) +
  (if strContains (lowerStr (c.description.getD "")) (lowerStr q) then 10 else 0)

/-- `InMemoryCaseRepository.search`: filter by text match and the optional
user/organization filters, sort by relevance descending, record the total
count of all matches, then truncate the result list to `limit`. -/
def inMemorySearch (store : List Case) (q : String) (u o : Option String)
    (limit : Nat) : List Case × Nat :=
  let filtered := store.filter fun c =>
    memSearchMatches q c &&
    (!optActive u || c.user_id == u.getD "") &&
    (!optActive o || c.organization_id == some (o.getD ""))
  let ranked := sortDescBy (memRelevance q) filtered
  (ranked.take limit, ranked.length)

/-- `InMemoryCaseRepository.add_message`: a missing case returns `False`; an
existing case gets the message appended, `message_count` incremented and
`last_activity_at` touched. -/
def inMemoryAddMessage (store : List Case) (cid : String) (m : Message) (now : Nat) :
    List Case × Bool :=
  match store.find? (·.case_id == cid) with
  | none => (store, false)
  | some c =>
    (memUpsert { c with
        messages := c.messages ++ [m]
        message_count := c.message_count + 1
        last_activity_at := some now } store,
     true)

/-- Row of the legacy single-table `cases` schema targeted by
`PostgreSQLCaseRepository`: every aggregate field lives on the root row,
collections and sub-objects as JSON columns. Columns whose JSON is parsed
unguarded in `_row_to_case` (`status_history`, `turn_history`, `evidence`,
`hypotheses`, `solutions`) are modelled as always written (the legacy `save`
always writes them); columns read through a NULL guard are `Option`. -/
structure LegacyRow where
  case_id : String
  user_id : String := ""
  organization_id : Option String := none
  title : String := ""
  description : Option String := none
  status : CaseStatus := .consulting
  status_history : List CaseStatusTransition := []
  closure_reason : Option String := none
  progress : Option InvestigationProgress := none
  current_turn : Nat := 0
  turns_without_progress : Nat := 0
  turn_history : List String := []
  path_selection : Option PathSelection := none
  investigation_strategy : Option String := none
  consulting : Option ConsultingData := none
  problem_verification : Option ProblemVerification := none
  uploaded_files : Option (List UploadedFile) := none
  evidence : List Evidence := []
  hypotheses : List (String × Hypothesis) := []
  solutions : List Solution := []
  working_conclusion : Option WorkingConclusion := none
  root_cause_conclusion : Option RootCauseConclusion := none
  degraded_mode : Option DegradedMode := none
  escalation_state : Option EscalationState := none
  documentation : Option DocumentationData := none
  messages : Option (List Message) := none
  message_count : Nat := 0
  created_at : Nat := 0
  updated_at : Nat := 0
  last_activity_at : Option Nat := none
  resolved_at : Option Nat := none
  closed_at : Option Nat := none
  deriving DecidableEq

/-- Serialisation of an aggregate into a legacy row, per the `case_data` dict
of `PostgreSQLCaseRepository.save` (every field written). -/
def caseToLegacyRow (c : Case) : LegacyRow :=
  { case_id := c.case_id
    user_id := c.user_id
    organization_id := c.organization_id
    title := c.title
    description := c.description
    status := c.status
    status_history := c.status_history
    closure_reason := c.closure_reason
    progress := some c.progress
    current_turn := c.current_turn
    turns_without_progress := c.turns_without_progress
    turn_history := c.turn_history
    path_selection := c.path_selection
    investigation_strategy := c.investigation_strategy
    consulting := some c.consulting
    problem_verification := c.problem_verification
    uploaded_files := some c.uploaded_files
    evidence := c.evidence
    hypotheses := c.hypotheses
    solutions := c.solutions
    working_conclusion := c.working_conclusion
    root_cause_conclusion := c.root_cause_conclusion
    degraded_mode := c.degraded_mode
    escalation_state := c.escalation_state
    documentation := some c.documentation
    messages := some c.messages
    message_count := c.message_count
    created_at := c.created_at
    updated_at := c.updated_at
    last_activity_at := c.last_activity_at
    resolved_at := c.resolved_at
    closed_at := c.closed_at }

/-- The `ON CONFLICT (case_id) DO UPDATE` merge of the legacy `save`: every
written column is overwritten except `case_id`, `user_id`, `organization_id`
and `created_at`, which keep their stored values. -/
def legacyMerge (old new : LegacyRow) : LegacyRow :=
  { new with
    user_id := old.user_id
    organization_id := old.organization_id
    created_at := old.created_at }

/-- The pure table effect of `PostgreSQLCaseRepository.save` (the upsert
statement applied to the legacy table). -/
def legacySaveApply (table : List LegacyRow) (c : Case) (now : Nat) : List LegacyRow :=
  upsertBy (·.case_id) legacyMerge (caseToLegacyRow { c with updated_at := now }) table

/-- `PostgreSQLCaseRepository.save` with an injected infrastructure failure.
The source has no `try`/`except`: a raw error from `db.execute` propagates
to the caller unwrapped, contradicting the interface docstring
(`Raises: RepositoryException: If save fails`). -/
def legacySaveR (fail : Bool) (table : List LegacyRow) (c : Case) (now : Nat) :
    Except PyErr (List LegacyRow) :=
  dbExec fail (legacySaveApply table c now)

/-- `PostgreSQLCaseRepository._row_to_case`: `consulting` and `documentation`
fall back to the type default when NULL, the nullable sub-objects to `None`,
and `uploaded_files`/`messages` to `[]`; but `progress` is parsed unguarded
(`InvestigationProgress(**json.loads(row.progress))`), so a NULL `progress`
column raises instead of defaulting. -/
def legacyRowToCase (r : LegacyRow) : Except String Case :=
  match r.progress with
  | none => .error "TypeError: json.loads(None) while parsing progress"
  | some p =>
    .ok
      { case_id := r.case_id
        user_id := r.user_id
        organization_id := r.organization_id
        title := r.title
        description := r.description
        status := r.status
        status_history := r.status_history
        closure_reason := r.closure_reason
        progress := p
        current_turn := r.current_turn
        turns_without_progress := r.turns_without_progress
        turn_history := r.turn_history
        path_selection := r.path_selection
        investigation_strategy := r.investigation_strategy
        consulting := r.consulting.getD {}
        problem_verification := r.problem_verification
        uploaded_files := r.uploaded_files.getD []
        evidence := r.evidence
        hypotheses := r.hypotheses
        solutions := r.solutions
        working_conclusion := r.working_conclusion
        root_cause_conclusion := r.root_cause_conclusion
        degraded_mode := r.degraded_mode
        escalation_state := r.escalation_state
        documentation := r.documentation.getD {}
        messages := r.messages.getD []
        message_count := r.message_count
        created_at := r.created_at
        updated_at := r.updated_at
        last_activity_at := r.last_activity_at
        resolved_at := r.resolved_at
        closed_at := r.closed_at }

/-- The WHERE clause of the legacy `list` (same truthiness-guarded filters as
the other backends). -/
def legacyRowMatches (u o : Option String) (st : Option CaseStatus) (r : LegacyRow) : Bool :=
  (!optActive u || r.user_id == u.getD "") &&
  (!optActive o || r.organization_id == some (o.getD "")) &&
  (st.all fun s => r.status == s)

/-- `PostgreSQLCaseRepository.list`: count matching rows, then page them
ordered by `last_activity_at DESC` and rebuild each aggregate. Rows are
returned as row structures here (the per-row rebuild is `legacyRowToCase`);
the pagination and ordering are what the claims consume. -/
def legacyList (table : List LegacyRow) (u o : Option String) (st : Option CaseStatus)
    (limit offset : Nat) : List LegacyRow × Nat :=
  let filtered := table.filter (legacyRowMatches u o st)
  ((( sortDescBy (fun r => r.last_activity_at.getD 0) filtered).drop offset).take limit,
   filtered.length)

/-- `PostgreSQLCaseRepository.add_message`: the parameter dict is built with
`datetime.now(timezone.utc)`, but the module imports only `datetime` and,
unlike the in-memory methods, this method has no local
`from datetime import timezone` — so the name `timezone` is unbound and the
call raises `NameError` before the UPDATE ever executes. The
`rowcount > 0` return (which would yield `False` for a missing case) is
unreachable. -/
def legacyAddMessage (_table : List LegacyRow) (_cid : String) (_m : Message) (_now : Nat) :
    Except PyErr (List LegacyRow × Bool) :=
  .error (.raw "NameError: name timezone is not defined")

/-- Well-formedness of an aggregate's child collections: ids are pairwise
distinct (automatic for the Python dict of hypotheses, and an invariant of
the id-generating service layer for the list collections). -/
def Case.wellFormed (c : Case) : Prop :=
  (c.evidence.map (·.evidence_id)).Nodup ∧
  (c.hypotheses.map (·.1)).Nodup ∧
  (c.solutions.map (·.solution_id)).Nodup ∧
  (c.uploaded_files.map (·.file_id)).Nodup

instance (c : Case) : Decidable c.wellFormed := by
  unfold Case.wellFormed; infer_instance

/-- The aggregate actually returned by the hybrid `get` after re-saving `c`
at time `now` over a pre-existing root row `r` (the only situation in which
the constrained save succeeds): root scalars, embedded sub-objects and child
id-membership come from `c` (hypothesis `status` reset to `proposed`,
evidence `preprocessed_content` normalised to a string); the fields the
hybrid schema does not round-trip come back as the domain default; and
`organization_id`, `created_at`, `last_activity_at`, `resolved_at` and
`closed_at` keep the pre-existing row's values, which the update never
touches. -/
def hybridResavedView (c : Case) (now : Nat) (r : CaseRow) : Case :=
  { case_id := r.case_id
    user_id := c.user_id
    organization_id := r.organization_id
    title := c.title
    description := none
    status := c.status
    status_history := []
    closure_reason := none
    progress := c.progress
    current_turn := 0
    turns_without_progress := 0
    turn_history := []
    path_selection := c.path_selection
    investigation_strategy := none
    consulting := c.consulting
    problem_verification := c.problem_verification
    uploaded_files := c.uploaded_files
    evidence := c.evidence.map fun e =>
      { e with preprocessed_content := some (e.preprocessed_content.getD "") }
    hypotheses := c.hypotheses.map fun kv => (kv.1, { kv.2 with status := .proposed })
    solutions := c.solutions
    working_conclusion := c.working_conclusion
    root_cause_conclusion := c.root_cause_conclusion
    degraded_mode := c.degraded_mode
    escalation_state := c.escalation_state
    documentation := c.documentation
    messages := []
    message_count := 0
    created_at := r.created_at
    updated_at := now
    last_activity_at := r.last_activity_at
    resolved_at := r.resolved_at
    closed_at := r.closed_at }

/-- A recorded status transition used by the concrete scenarios. -/
def exTransition : CaseStatusTransition :=
  { from_status := some .consulting, to_status := .investigating, timestamp := 3 }

/-- Evidence fixture. -/
def exEvidence1 : Evidence :=
  { evidence_id := "ev_1", data_type := "LOGS_AND_ERRORS", summary := "http 500 burst"
    preprocessed_content := some "error 500 in gateway log", timestamp := 1 }

/-- Second evidence fixture. -/
def exEvidence2 : Evidence :=
  { evidence_id := "ev_2", data_type := "LOGS_AND_ERRORS", summary := "latency spike"
    preprocessed_content := some "p99 latency 4s", timestamp := 2 }

/-- Message fixture. -/
def exMessage : Message :=
  { message_id := "msg_1", role := "user", content := "the api is down" }

/-- A fully populated aggregate for the round-trip scenario: every field the
original claim lists is set to a non-default value. -/
def c1Case : Case :=
  { case_id := "case_1", user_id := "u1", organization_id := some "org_1"
    title := "API gateway 502", description := some "gateway returns 502 since noon"
    status := .investigating, status_history := [exTransition]
    current_turn := 3, investigation_strategy := some "sequential"
    messages := [exMessage], message_count := 1
    created_at := 1, last_activity_at := some 9, resolved_at := none, closed_at := none
    evidence := [exEvidence1] }

/-- A pre-existing `cases` row for `case_1`, as a legacy writer or a seeding
script could have created it (the hybrid insert arm itself cannot). -/
def c1SeedRow : CaseRow :=
  { case_id := "case_1", user_id := "seed_user", organization_id := some "org_seed"
    title := "seed title", status := .consulting, created_at := 1
    last_activity_at := some 4, resolved_at := none, closed_at := none }

/-- Aggregate with two evidence items. -/
def c2CaseFull : Case :=
  { case_id := "case_2", user_id := "u2", title := "disk", evidence := [exEvidence1, exEvidence2] }

/-- The same aggregate after the caller removed `ev_2`. -/
def c2CaseOne : Case :=
  { c2CaseFull with evidence := [exEvidence1] }

/-- The same aggregate after the caller removed all evidence. -/
def c2CaseEmpty : Case :=
  { c2CaseFull with evidence := [] }

/-- Store after saving the two-item aggregate. -/
def c2db1 : HybridDB := (hybridSave HybridDB.empty c2CaseFull 1).1

/-- Store after the save that removed `ev_2` (a proper non-empty subset). -/
def c2db2 : HybridDB := (hybridSave c2db1 c2CaseOne 2).1

/-- Store after the save that removed every evidence item. -/
def c2db3 : HybridDB := (hybridSave c2db2 c2CaseEmpty 3).1

/-- Aggregate carrying one recorded status transition. -/
def c3Case : Case :=
  { case_id := "case_3", user_id := "u3", title := "t3", status := .investigating
    status_history := [exTransition] }

/-- Store after saving the unchanged aggregate twice. -/
def c3db : HybridDB := (hybridSave (hybridSave HybridDB.empty c3Case 1).1 c3Case 2).1

/-- The rational 2/5 — the 0.4 confidence of the spec's example — written in
lowest terms so equality on it evaluates structurally. -/
def conf04 : ℚ := ⟨2, 5, by decide, by decide⟩

/-- The rational 9/10 — the 0.9 confidence of the spec's example. -/
def conf09 : ℚ := ⟨9, 10, by decide, by decide⟩

/-- Hypothesis as first proposed. -/
def h1a : Hypothesis :=
  { hypothesis := "disk controller failing", status := .proposed
    confidence := some conf04, proposed_at := 1 }

/-- The same hypothesis after validation. -/
def h1b : Hypothesis :=
  { h1a with status := .validated, confidence := some conf09 }

/-- Aggregate carrying the freshly proposed hypothesis. -/
def c5CaseA : Case :=
  { case_id := "case_5", user_id := "u5", title := "t5", hypotheses := [("hyp_1", h1a)] }

/-- The same aggregate after the hypothesis was updated in place. -/
def c5CaseB : Case :=
  { c5CaseA with hypotheses := [("hyp_1", h1b)] }

/-- Store after saving the proposed and then the validated version. -/
def c5db : HybridDB := (hybridSave (hybridSave HybridDB.empty c5CaseA 1).1 c5CaseB 2).1

/-- A legacy row whose `progress` column is NULL (old data or a manual edit,
per the comment block in `PostgreSQLCaseRepository._row_to_case`). -/
def nullProgressRow : LegacyRow :=
  { case_id := "case_6", user_id := "u6", title := "t6" }

/-- A hybrid `cases` row with every embedded column NULL. -/
def nullColumnsRow : CaseRow :=
  { case_id := "case_6h", user_id := "u6", title := "t6h" }

/-- Hybrid row updated long ago but touched recently. -/
def c7RowA : CaseRow :=
  { case_id := "case_a", user_id := "u7", title := "a", updated_at := 1, last_activity_at := some 5 }

/-- Hybrid row updated recently but idle since creation. -/
def c7RowB : CaseRow :=
  { case_id := "case_b", user_id := "u7", title := "b", updated_at := 2, last_activity_at := some 0 }

/-- Hybrid store for the ordering scenario. -/
def c7db : HybridDB := { cases := [c7RowA, c7RowB] }

/-- Three hybrid rows whose titles match the query "disk". -/
def c8Row1 : CaseRow :=
  { case_id := "case_s1", user_id := "u8", title := "Disk failure", updated_at := 3 }

/-- Second matching hybrid row. -/
def c8Row2 : CaseRow :=
  { case_id := "case_s2", user_id := "u8", title := "disk slow", updated_at := 2 }

/-- Third matching hybrid row. -/
def c8Row3 : CaseRow :=
  { case_id := "case_s3", user_id := "u8", title := "bad disk", updated_at := 1 }

/-- Hybrid store holding three cases matching "disk". -/
def c8db : HybridDB := { cases := [c8Row1, c8Row2, c8Row3] }

/-- The same three cases in the in-memory store. -/
def c8mem : List Case :=
  [ { case_id := "case_s1", user_id := "u8", title := "Disk failure", updated_at := 3 }
  , { case_id := "case_s2", user_id := "u8", title := "disk slow", updated_at := 2 }
  , { case_id := "case_s3", user_id := "u8", title := "bad disk", updated_at := 1 } ]

/-- Aggregate for the failure-wrapping scenario. -/
def c9Case : Case := { case_id := "case_9", user_id := "u9", title := "t9" }

theorem mem_insertDescBy {key : ρ → Nat} {x a : ρ} {l : List ρ} :
    a ∈ insertDescBy key x l ↔ a = x ∨ a ∈ l := by
  induction l with
  | nil => simp [insertDescBy]
  | cons y ys ih =>
    unfold insertDescBy
    by_cases h : key x < key y
    · simp only [if_pos h, List.mem_cons, ih]
      tauto
    · simp only [if_neg h, List.mem_cons]

theorem pairwise_insertDescBy {key : ρ → Nat} {x : ρ} {l : List ρ}
    (h : l.Pairwise (fun a b => key b ≤ key a)) :
    (insertDescBy key x l).Pairwise (fun a b => key b ≤ key a) := by
  induction l with
  | nil => simp [insertDescBy]
  | cons y ys ih =>
    rw [List.pairwise_cons] at h
    unfold insertDescBy
    by_cases hxy : key x < key y
    · rw [if_pos hxy, List.pairwise_cons]
      refine ⟨fun z hz => ?_, ih h.2⟩
      rcases mem_insertDescBy.mp hz with hz | hz
      · subst hz; exact Nat.le_of_lt hxy
      · exact h.1 z hz
    · rw [if_neg hxy, List.pairwise_cons]
      refine ⟨fun z hz => ?_, List.pairwise_cons.mpr h⟩
      rcases List.mem_cons.mp hz with hz | hz
      · subst hz; omega
      · exact Nat.le_trans (h.1 z hz) (Nat.le_of_not_lt hxy)

theorem pairwise_sortDescBy (key : ρ → Nat) (l : List ρ) :
    (sortDescBy key l).Pairwise (fun a b => key b ≤ key a) := by
  induction l with
  | nil => simp [sortDescBy]
  | cons x xs ih => exact pairwise_insertDescBy ih

theorem mem_sortDescBy {key : ρ → Nat} {a : ρ} {l : List ρ} :
    a ∈ sortDescBy key l ↔ a ∈ l := by
  induction l with
  | nil => simp [sortDescBy]
  | cons x xs ih =>
    unfold sortDescBy
    rw [mem_insertDescBy, ih, List.mem_cons]

theorem upsertBy_of_key_not_mem {key : ρ → String} {merge : ρ → ρ → ρ} {r : ρ}
    {t : List ρ} (h : key r ∉ t.map key) :
    upsertBy key merge r t = t ++ [r] := by
  induction t with
  | nil => rfl
  | cons x xs ih =>
    simp only [List.map_cons, List.mem_cons, not_or] at h
    unfold upsertBy
    rw [if_neg (fun he => h.1 he.symm), ih h.2, List.cons_append]

theorem foldl_upsertBy_append {key : ρ → String} {merge : ρ → ρ → ρ} (toRow : σ → ρ)
    (l : List σ) (t : List ρ)
    (hdisj : ∀ x ∈ l, key (toRow x) ∉ t.map key)
    (hnd : (l.map fun x => key (toRow x)).Nodup) :
    l.foldl (fun acc x => upsertBy key merge (toRow x) acc) t = t ++ l.map toRow := by
  induction l generalizing t with
  | nil => simp
  | cons x xs ih =>
    simp only [List.map_cons, List.nodup_cons, List.mem_map] at hnd
    rw [List.foldl_cons, upsertBy_of_key_not_mem (hdisj x (List.mem_cons_self x xs))]
    rw [ih (t ++ [toRow x]) ?_ hnd.2, List.map_cons]
    · simp
    · intro y hy
      simp only [List.map_append, List.map_cons, List.map_nil, List.mem_append,
        List.mem_cons, List.not_mem_nil, or_false, not_or]
      exact ⟨hdisj y (List.mem_cons_of_mem x hy),
        fun he => hnd.1 ⟨y, hy, he⟩⟩

theorem filter_map_all {f : σ → ρ} {p : ρ → Bool} (l : List σ)
    (h : ∀ x ∈ l, p (f x) = true) : (l.map f).filter p = l.map f := by
  induction l with
  | nil => rfl
  | cons x xs ih =>
    rw [List.map_cons, List.filter_cons, if_pos (h x (List.mem_cons_self x xs)),
      ih fun y hy => h y (List.mem_cons_of_mem x hy)]

theorem find_caseRow_of_nodup {l : List CaseRow}
    (hnd : (l.map (·.case_id)).Nodup) {r : CaseRow} (hr : r ∈ l) :
    l.find? (·.case_id == r.case_id) = some r := by
  induction l with
  | nil => cases hr
  | cons x xs ih =>
    simp only [List.map_cons, List.nodup_cons, List.mem_map] at hnd
    rcases List.mem_cons.mp hr with hr | hr
    · subst hr
      exact List.find?_cons_of_pos _ (by simp)
    · have hne : x.case_id ≠ r.case_id := fun he => hnd.1 ⟨r, hr, he.symm⟩
      rw [List.find?_cons_of_neg _ (by simp [hne])]
      exact ih hnd.2 hr

theorem appendStatusTransitions_tables (cid : String) (ts : List CaseStatusTransition)
    (db : HybridDB) :
    (appendStatusTransitions cid ts db).cases = db.cases ∧
    (appendStatusTransitions cid ts db).evidence = db.evidence ∧
    (appendStatusTransitions cid ts db).hypotheses = db.hypotheses ∧
    (appendStatusTransitions cid ts db).solutions = db.solutions ∧
    (appendStatusTransitions cid ts db).uploaded_files = db.uploaded_files := by
  induction ts generalizing db with
  | nil => exact ⟨rfl, rfl, rfl, rfl, rfl⟩
  | cons t ts ih =>
    unfold appendStatusTransitions
    rw [List.foldl_cons]
    exact ih _

theorem hybridGet_appendStatusTransitions (cid : String) (ts : List CaseStatusTransition)
    (db : HybridDB) (x : String) :
    hybridGet (appendStatusTransitions cid ts db) x = hybridGet db x := by
  obtain ⟨h1, h2, h3, h4, h5⟩ := appendStatusTransitions_tables cid ts db
  unfold hybridGet
  rw [h1, h2, h3, h4, h5]

theorem hybridGet_save (db : HybridDB) (c : Case) (now : Nat) (x : String) :
    hybridGet (hybridSave db c now).1 x =
      hybridGet (upsertUploadedFiles c.case_id c.uploaded_files
        (upsertSolutions c.case_id c.solutions now
          (upsertHypotheses c.case_id c.hypotheses now
            (upsertEvidence c.case_id c.evidence
              (upsertCaseRecord c now db))))) x := by
  by_cases hb : c.status_history.isEmpty <;>
    simp [hybridSave, hybridSaveSteps, hb, hybridGet_appendStatusTransitions]

theorem upsertEvidence_table_of_empty (cid : String) (evs : List Evidence) (db : HybridDB)
    (hdb : db.evidence = []) (hnd : (evs.map (·.evidence_id)).Nodup) :
    (upsertEvidence cid evs db).evidence = evs.map (evidenceToRow cid) := by
  unfold upsertEvidence
  rw [hdb]
  simp only [List.filter_nil, ite_self]
  rw [foldl_upsertBy_append (evidenceToRow cid) evs [] (by simp) hnd]
  simp

theorem upsertHypotheses_table_of_empty (cid : String) (hs : List (String × Hypothesis))
    (now : Nat) (db : HybridDB) (hdb : db.hypotheses = [])
    (hnd : (hs.map (·.1)).Nodup) :
    (upsertHypotheses cid hs now db).hypotheses = hs.map (hypothesisToRow cid now) := by
  unfold upsertHypotheses
  rw [hdb]
  simp only [List.filter_nil, ite_self]
  rw [foldl_upsertBy_append (hypothesisToRow cid now) hs [] (by simp) hnd]
  simp

theorem upsertSolutions_table_of_empty (cid : String) (sols : List Solution) (now : Nat)
    (db : HybridDB) (hdb : db.solutions = []) (hnd : (sols.map (·.solution_id)).Nodup) :
    (upsertSolutions cid sols now db).solutions = sols.map (solutionToRow cid now) := by
  unfold upsertSolutions
  rw [hdb]
  simp only [List.filter_nil, ite_self]
  rw [foldl_upsertBy_append (solutionToRow cid now) sols [] (by simp) hnd]
  simp

theorem upsertUploadedFiles_table_of_empty (cid : String) (fs : List UploadedFile)
    (db : HybridDB) (hdb : db.uploaded_files = []) (hnd : (fs.map (·.file_id)).Nodup) :
    (upsertUploadedFiles cid fs db).uploaded_files = fs.map (fileToRow cid) := by
  unfold upsertUploadedFiles
  rw [hdb]
  simp only [List.filter_nil, ite_self]
  rw [foldl_upsertBy_append (fileToRow cid) fs [] (by simp) hnd]
  simp

theorem runFlushedSteps_none (l : List (HybridDB → HybridDB)) (i : Nat) (p : HybridDB) :
    runFlushedSteps none l i p = some (l.foldl (fun d f => f d) p) := by
  induction l generalizing i p with
  | nil => rfl
  | cons f fs ih => simp [runFlushedSteps, ih]

theorem runFlushedSteps_fail (l : List (HybridDB → HybridDB)) (k i : Nat) (p : HybridDB)
    (h1 : i ≤ k) (h2 : k < i + l.length) :
    runFlushedSteps (some k) l i p = none := by
  induction l generalizing i p with
  | nil => simp at h2; omega
  | cons f fs ih =>
    unfold runFlushedSteps
    by_cases hk : k = i
    · subst hk; simp
    · rw [if_neg fun he => hk (Option.some.inj he)]
      refine ih (i + 1) (f p) (by omega) (by simp at h2 ⊢; omega)

theorem hybridSaveChecked_of_mem (db : HybridDB) (c : Case) (now : Nat)
    (h : db.cases.any (·.case_id == c.case_id) = true) :
    hybridSaveChecked db c now = .ok (hybridSave db c now) := by
  unfold hybridSaveChecked upsertCaseRecordChecked
  rw [if_pos h]
  rfl

/-- C1 (counterexample): the hybrid repository does not round-trip a
not-yet-stored aggregate at all. The migration declares
`cases.organization_id` NOT NULL with no default and `_upsert_case_record`
omits that column, so the very first save of `c1Case` raises the wrapped
constraint violation, nothing is committed, and `get` afterwards returns
`None` rather than an aggregate equal to the saved one. -/
theorem c1_roundtrip_counterexample :
    hybridSaveChecked HybridDB.empty c1Case 20 =
      .error (.repositoryError "save case case_1" (some "case_1")
        "NotNullViolation on cases.organization_id") ∧
    hybridGet HybridDB.empty "case_1" = none ∧
    c1Case.description = some "gateway returns 502 since noon" := by decide

/-- C1 (amended): under the migration's constraints the hybrid repository
cannot create a case. Saving an aggregate whose `case_id` has no stored row
raises the wrapped NOT NULL violation on `cases.organization_id` and `get`
still returns the not-found signal. When the root row pre-exists (created
outside this repository) and the aggregate's child ids are pairwise
distinct, save succeeds through the conflict-update arm and `get` returns
exactly `hybridResavedView c now r`: `user_id`, `title`, `status`, the nine
embedded sub-objects and the id-membership of the four child collections
come from the saved aggregate (hypothesis `status` reset to `proposed`,
evidence `preprocessed_content` normalised to a string), `updated_at` is the
save time, the fields the hybrid schema does not round-trip come back as
`None`/empty/zero, and `organization_id`, `created_at`, `last_activity_at`,
`resolved_at` and `closed_at` keep the pre-existing row's values. -/
theorem c1_roundtrip_amended (c : Case) (now : Nat) (db : HybridDB) (r : CaseRow)
    (hfresh : db.cases.find? (·.case_id == c.case_id) = none)
    (hr : r.case_id = c.case_id) (h : c.wellFormed) :
    (hybridSaveChecked db c now =
        .error (.repositoryError ("save case " ++ c.case_id) (some c.case_id)
          "NotNullViolation on cases.organization_id") ∧
      hybridGet db c.case_id = none) ∧
    ∃ db', hybridSaveChecked { cases := [r] } c now = .ok (db', { c with updated_at := now }) ∧
      hybridGet db' c.case_id = some (hybridResavedView c now r) := by
  obtain ⟨hev, hhyp, hsol, hfile⟩ := h
  have hany : db.cases.any (·.case_id == c.case_id) = false := by
    rw [List.any_eq_false]
    intro x hx
    simpa using List.find?_eq_none.mp hfresh x hx
  refine ⟨⟨?_, ?_⟩, ?_⟩
  · unfold hybridSaveChecked upsertCaseRecordChecked
    rw [if_neg (by simp [hany])]
    rfl
  · unfold hybridGet
    rw [hfresh]
    rfl
  · have hany2 : (({ cases := [r] } : HybridDB).cases.any (·.case_id == c.case_id)) = true := by
      simp [hr]
    refine ⟨(hybridSave { cases := [r] } c now).1, ?_, ?_⟩
    · rw [hybridSaveChecked_of_mem _ _ _ hany2]
      rfl
    · rw [hybridGet_save]
      have hc : (upsertUploadedFiles c.case_id c.uploaded_files
          (upsertSolutions c.case_id c.solutions now
            (upsertHypotheses c.case_id c.hypotheses now
              (upsertEvidence c.case_id c.evidence
                (upsertCaseRecord c now { cases := [r] }))))).cases =
          [{ r with
              user_id := c.user_id
              title := c.title
              status := c.status
              updated_at := now
              consulting := some c.consulting
              problem_verification := c.problem_verification
              working_conclusion := c.working_conclusion
              root_cause_conclusion := c.root_cause_conclusion
              path_selection := c.path_selection
              degraded_mode := c.degraded_mode
              escalation_state := c.escalation_state
              documentation := some c.documentation
              progress := some c.progress }] := by
        show (upsertCaseRecord c now { cases := [r] }).cases = _
        simp only [upsertCaseRecord, upsertBy, caseRecordRow]
        rw [if_pos hr]
      have he : (upsertUploadedFiles c.case_id c.uploaded_files
          (upsertSolutions c.case_id c.solutions now
            (upsertHypotheses c.case_id c.hypotheses now
              (upsertEvidence c.case_id c.evidence
                (upsertCaseRecord c now { cases := [r] }))))).evidence
            = c.evidence.map (evidenceToRow c.case_id) := by
        show (upsertEvidence c.case_id c.evidence
          (upsertCaseRecord c now { cases := [r] })).evidence = _
        exact upsertEvidence_table_of_empty _ _ _ rfl hev
      have hh : (upsertUploadedFiles c.case_id c.uploaded_files
          (upsertSolutions c.case_id c.solutions now
            (upsertHypotheses c.case_id c.hypotheses now
              (upsertEvidence c.case_id c.evidence
                (upsertCaseRecord c now { cases := [r] }))))).hypotheses
            = c.hypotheses.map (hypothesisToRow c.case_id now) := by
        show (upsertHypotheses c.case_id c.hypotheses now (upsertEvidence c.case_id c.evidence
          (upsertCaseRecord c now { cases := [r] }))).hypotheses = _
        exact upsertHypotheses_table_of_empty _ _ _ _ rfl hhyp
      have hs : (upsertUploadedFiles c.case_id c.uploaded_files
          (upsertSolutions c.case_id c.solutions now
            (upsertHypotheses c.case_id c.hypotheses now
              (upsertEvidence c.case_id c.evidence
                (upsertCaseRecord c now { cases := [r] }))))).solutions
            = c.solutions.map (solutionToRow c.case_id now) := by
        show (upsertSolutions c.case_id c.solutions now (upsertHypotheses c.case_id c.hypotheses
          now (upsertEvidence c.case_id c.evidence
            (upsertCaseRecord c now { cases := [r] })))).solutions = _
        exact upsertSolutions_table_of_empty _ _ _ _ rfl hsol
      have hf : (upsertUploadedFiles c.case_id c.uploaded_files
          (upsertSolutions c.case_id c.solutions now
            (upsertHypotheses c.case_id c.hypotheses now
              (upsertEvidence c.case_id c.evidence
                (upsertCaseRecord c now { cases := [r] }))))).uploaded_files
            = c.uploaded_files.map (fileToRow c.case_id) := by
        exact upsertUploadedFiles_table_of_empty _ _ _ rfl hfile
      simp only [hybridGet]
      rw [hc, he, hh, hs, hf]
      rw [List.find?_cons_of_pos _ (by simp [hr])]
      rw [filter_map_all _ (fun x hx => by simp [evidenceToRow]),
          filter_map_all _ (fun x hx => by simp [hypothesisToRow]),
          filter_map_all _ (fun x hx => by simp [solutionToRow]),
          filter_map_all _ (fun x hx => by simp [fileToRow])]
      rw [List.map_map, List.map_map, List.map_map, List.map_map]
      rw [show (rowToSolution ∘ solutionToRow c.case_id now) = id from rfl, List.map_id]
      rw [show (rowToFile ∘ fileToRow c.case_id) = id from rfl, List.map_id]
      rfl

/-- C1 (witness): the amended statement at the concrete aggregate `c1Case`,
the empty store, and the pre-existing row `c1SeedRow`. -/
theorem c1_roundtrip_amended_witness :
    (hybridSaveChecked HybridDB.empty c1Case 20 =
        .error (.repositoryError "save case case_1" (some "case_1")
          "NotNullViolation on cases.organization_id") ∧
      hybridGet HybridDB.empty "case_1" = none) ∧
    ∃ db', hybridSaveChecked { cases := [c1SeedRow] } c1Case 20 =
        .ok (db', { c1Case with updated_at := 20 }) ∧
      hybridGet db' "case_1" = some (hybridResavedView c1Case 20 c1SeedRow) :=
  c1_roundtrip_amended c1Case 20 HybridDB.empty c1SeedRow rfl rfl (by decide)

/-- C2: the differential upsert deletes removed rows only while the in-memory
collection is non-empty. Shrinking the evidence from two items to one works
(`get` returns exactly `ev_1`), but a save with the collection emptied leaves
the `ev_1` row stored and `get` still returns it — the source guards the
DELETE with `if current_ids:`, so the empty collection never deletes. -/
theorem c2_empty_collection_leaves_rows :
    ((hybridGet c2db2 "case_2").map fun c => c.evidence.map (·.evidence_id)) = some ["ev_1"] ∧
    c2CaseEmpty.evidence = [] ∧
    ((hybridGet c2db3 "case_2").map fun c => c.evidence.map (·.evidence_id)) = some ["ev_1"] ∧
    c2db3.evidence.map (·.evidence_id) = ["ev_1"] := by decide

/-- C3: re-saving an unchanged aggregate duplicates its status transitions.
`case_status_transitions` has only the autoincrement surrogate primary key,
so the repository's `ON CONFLICT DO NOTHING` never fires: after two saves of
the same aggregate the table holds two rows with identical payload. -/
theorem c3_resave_duplicates_status_transitions :
    c3db.case_status_transitions.map
        (fun r => (r.case_id, r.from_status, r.to_status, r.transitioned_at)) =
      [("case_3", some .consulting, .investigating, 3),
       ("case_3", some .consulting, .investigating, 3)] := by decide

/-- C4: one save call is one atomic unit of work. The repository only flushes
inside the session scope of `DatabaseClient.get_session`; if any of the six
write steps raises, the session rolls back and the committed state is exactly
the pre-call state (and an error surfaces); on success the committed state is
the full effect of all steps. -/
theorem c4_save_atomicity (db : HybridDB) (c : Case) (now k : Nat)
    (hk : k < (hybridSaveSteps c now).length) :
    (runSaveRequest db c now (some k)).1 = db ∧
    (runSaveRequest db c now (some k)).2.isSome = true ∧
    runSaveRequest db c now none = ((hybridSave db c now).1, none) := by
  unfold runSaveRequest
  rw [runFlushedSteps_fail _ k 0 db (Nat.zero_le k) (by simpa using hk)]
  rw [runFlushedSteps_none]
  exact ⟨rfl, rfl, rfl⟩

/-- C4 (witness): a failure in the fourth write step of a concrete save
leaves the empty store unchanged. -/
theorem c4_save_atomicity_witness :
    (runSaveRequest HybridDB.empty c1Case 20 (some 3)).1 = HybridDB.empty ∧
    runSaveRequest HybridDB.empty c1Case 20 none =
      ((hybridSave HybridDB.empty c1Case 20).1, none) := by
  have h := c4_save_atomicity HybridDB.empty c1Case 20 3 (by decide)
  exact ⟨h.1, h.2.2⟩

/-- C5: updating a hypothesis in place keeps exactly one row and the updated
confidence, but not the updated status: `_upsert_hypotheses` passes the
literal string `proposed` for the status column, so after updating `hyp_1`
from proposed/0.4 to validated/0.9 and re-saving, `get` returns one
hypothesis whose confidence is 0.9 and whose status is still `proposed`. -/
theorem c5_hypothesis_update_loses_status :
    c5db.hypotheses.length = 1 ∧
    ((hybridGet c5db "case_5").map fun c =>
        c.hypotheses.map fun kv => (kv.1, kv.2.status, kv.2.confidence)) =
      some [("hyp_1", HypothesisStatus.proposed, some conf09)] ∧
    h1b.status = .validated := by decide

/-- C6 (counterexample): in the legacy PostgreSQL backend a NULL `progress`
column makes `_row_to_case` raise (`json.loads(None)`) instead of
deserialising to the type default, although `progress` is one of the
always-present embedded columns the claim covers. -/
theorem c6_null_progress_counterexample :
    legacyRowToCase nullProgressRow =
      .error "TypeError: json.loads(None) while parsing progress" ∧
    nullProgressRow.progress = none := by decide

/-- C6 (amended): in the hybrid backend a NULL `consulting`, `documentation`
or `progress` column deserialises to the type default and each of the six
nullable embedded columns passes through as `None`, never an error; in the
legacy backend the same holds for `consulting`, `documentation` and the
nullable columns, but a NULL `progress` raises instead of defaulting. -/
theorem c6_null_embedded_defaults_amended (r : CaseRow) (evs : List Evidence)
    (hyps : List (String × Hypothesis)) (sols : List Solution) (files : List UploadedFile)
    (lr : LegacyRow) :
    ((hybridRowToCase r evs hyps sols files).consulting = r.consulting.getD {} ∧
     (hybridRowToCase r evs hyps sols files).documentation = r.documentation.getD {} ∧
     (hybridRowToCase r evs hyps sols files).progress = r.progress.getD {} ∧
     (hybridRowToCase r evs hyps sols files).problem_verification = r.problem_verification ∧
     (hybridRowToCase r evs hyps sols files).working_conclusion = r.working_conclusion ∧
     (hybridRowToCase r evs hyps sols files).root_cause_conclusion = r.root_cause_conclusion ∧
     (hybridRowToCase r evs hyps sols files).path_selection = r.path_selection ∧
     (hybridRowToCase r evs hyps sols files).degraded_mode = r.degraded_mode ∧
     (hybridRowToCase r evs hyps sols files).escalation_state = r.escalation_state) ∧
    (lr.progress = none →
      legacyRowToCase lr = .error "TypeError: json.loads(None) while parsing progress") ∧
    (∀ p, lr.progress = some p →
      ∃ c, legacyRowToCase lr = .ok c ∧
        c.consulting = lr.consulting.getD {} ∧
        c.documentation = lr.documentation.getD {} ∧
        c.progress = p ∧
        c.problem_verification = lr.problem_verification ∧
        c.working_conclusion = lr.working_conclusion ∧
        c.root_cause_conclusion = lr.root_cause_conclusion ∧
        c.path_selection = lr.path_selection ∧
        c.degraded_mode = lr.degraded_mode ∧
        c.escalation_state = lr.escalation_state) := by
  refine ⟨⟨rfl, rfl, rfl, rfl, rfl, rfl, rfl, rfl, rfl⟩, ?_, ?_⟩
  · intro h
    simp [legacyRowToCase, h]
  · intro p hp
    unfold legacyRowToCase
    rw [hp]
    exact ⟨_, rfl, rfl, rfl, rfl, rfl, rfl, rfl, rfl, rfl, rfl⟩

/-- C6 (witness): the amended statement at a hybrid row with all embedded
columns NULL and at the legacy row with NULL progress. -/
theorem c6_null_embedded_defaults_amended_witness :
    (hybridRowToCase nullColumnsRow [] [] [] []).progress = {} ∧
    (hybridRowToCase nullColumnsRow [] [] [] []).problem_verification = none ∧
    legacyRowToCase nullProgressRow =
      .error "TypeError: json.loads(None) while parsing progress" := by
  have h := c6_null_embedded_defaults_amended nullColumnsRow [] [] [] [] nullProgressRow
  exact ⟨h.1.2.2.1, h.1.2.2.2.1, h.2.1 rfl⟩

/-- C8: the in-memory baseline returns the total number of matches as the
second component of `search` even beyond `limit` (three cases match "disk",
limit 2, total 3), while the hybrid backend returns `len(cases)`, which is
capped at `limit` (total 2 for the same data) — the backends disagree on the
total count exactly when matches exceed the limit. -/
theorem c8_search_total_count_divergence :
    (inMemorySearch c8mem "disk" none none 2).2 = 3 ∧
    (inMemorySearch c8mem "disk" none none 2).1.length = 2 ∧
    (hybridSearch c8db "disk" none none 2).2 = 2 ∧
    (hybridSearch c8db "disk" none none 2).1.length = 2 := by decide

/-- C9: the hybrid repository wraps an injected infrastructure failure of
`save`/`get` into its repository exception carrying the operation and case
id, but the legacy PostgreSQL `save` has no handler and propagates the raw
driver error unwrapped, contradicting the interface contract; on success the
legacy save reports its result (no swallowing either way). -/
theorem c9_failure_wrapping_divergence :
    legacySaveR true [] c9Case 7 = .error (.raw "connection lost") ∧
    hybridSaveR true HybridDB.empty c9Case 7 =
      .error (.repositoryError "save case case_9" (some "case_9") "connection lost") ∧
    hybridGetR true HybridDB.empty "case_9" =
      .error (.repositoryError "get case case_9" (some "case_9") "connection lost") ∧
    legacySaveR false [] c9Case 7 = .ok (legacySaveApply [] c9Case 7) := by decide

/-- C10: a nonexistent `case_id` makes `add_message` return `False` only in
the in-memory baseline. In the hybrid backend the insert into
`case_messages` violates the foreign key and the wrapped exception is
re-raised instead of returning `False`; in the legacy backend the method
raises a raw `NameError` (`timezone` is unbound in
`PostgreSQLCaseRepository.add_message`) before any SQL runs, so its
`rowcount > 0 → False` path is unreachable; `get` itself signals not-found
with `None` as the claim expects. -/
theorem c10_add_message_not_found_divergence :
    inMemoryAddMessage [] "case_x" exMessage 5 = ([], false) ∧
    hybridAddMessage HybridDB.empty "case_x" exMessage =
      .error (.repositoryError "add message to case" (some "case_x")
        "ForeignKeyViolation on case_messages.case_id") ∧
    legacyAddMessage [] "case_x" exMessage 5 =
      .error (.raw "NameError: name timezone is not defined") ∧
    hybridGet HybridDB.empty "case_x" = none := by decide

theorem filterMap_hybridGet_eq (db : HybridDB) (page : List CaseRow)
    (hnd : (db.cases.map (·.case_id)).Nodup) (hmem : ∀ r ∈ page, r ∈ db.cases) :
    (page.map (·.case_id)).filterMap (hybridGet db) =
      page.map (fun r => hybridRowToCase r
        ((db.evidence.filter (·.case_id == r.case_id)).map rowToEvidence)
        ((db.hypotheses.filter (·.case_id == r.case_id)).map rowToHypothesis)
        ((db.solutions.filter (·.case_id == r.case_id)).map rowToSolution)
        ((db.uploaded_files.filter (·.case_id == r.case_id)).map rowToFile)) := by
  induction page with
  | nil => rfl
  | cons r rest ih =>
    rw [List.map_cons, List.map_cons, List.filterMap_cons]
    have hget : hybridGet db r.case_id = some (hybridRowToCase r
        ((db.evidence.filter (·.case_id == r.case_id)).map rowToEvidence)
        ((db.hypotheses.filter (·.case_id == r.case_id)).map rowToHypothesis)
        ((db.solutions.filter (·.case_id == r.case_id)).map rowToSolution)
        ((db.uploaded_files.filter (·.case_id == r.case_id)).map rowToFile)) := by
      unfold hybridGet
      rw [find_caseRow_of_nodup hnd (hmem r (List.mem_cons_self r rest))]
      rfl
    rw [hget]
    exact congrArg _ (ih fun x hx => hmem x (List.mem_cons_of_mem r hx))

/-- C7 (counterexample): the hybrid `list` orders by `updated_at`, not by the
last-activity timestamp. With case `a` (updated at 1, active at 5) and case
`b` (updated at 2, active at 0), the hybrid backend returns `b` before `a`,
so the page is not in descending last-activity order. -/
theorem c7_hybrid_list_order_counterexample :
    ((hybridList c7db none none none 50 0).1.map fun c => c.last_activity_at) =
      [some 0, some 5] ∧
    ¬ (hybridList c7db none none none 50 0).1.Pairwise
        (fun a b => lastActivityKey b ≤ lastActivityKey a) := by decide

/-- C7 (amended): for any filters and page bounds, the in-memory and legacy
PostgreSQL backends return their page sorted by last-activity timestamp
descending, while the hybrid backend (given the primary-key invariant that
stored case ids are distinct) returns its page sorted by `updated_at`
descending. -/
theorem c7_list_ordering_amended (store : List Case) (table : List LegacyRow)
    (db : HybridDB) (u o : Option String) (st : Option CaseStatus) (limit offset : Nat)
    (hnd : (db.cases.map (·.case_id)).Nodup) :
    (inMemoryList store u o st limit offset).1.Pairwise
      (fun a b => lastActivityKey b ≤ lastActivityKey a) ∧
    (legacyList table u o st limit offset).1.Pairwise
      (fun a b => b.last_activity_at.getD 0 ≤ a.last_activity_at.getD 0) ∧
    (hybridList db u o st limit offset).1.Pairwise
      (fun a b => b.updated_at ≤ a.updated_at) := by
  refine ⟨?_, ?_, ?_⟩
  · exact List.Pairwise.sublist ((List.take_sublist _ _).trans (List.drop_sublist _ _))
      (pairwise_sortDescBy _ _)
  · exact List.Pairwise.sublist ((List.take_sublist _ _).trans (List.drop_sublist _ _))
      (pairwise_sortDescBy _ _)
  · simp only [hybridList]
    rw [filterMap_hybridGet_eq db _ hnd ?_]
    · rw [List.pairwise_map]
      exact List.Pairwise.sublist ((List.take_sublist _ _).trans (List.drop_sublist _ _))
        (pairwise_sortDescBy _ _)
    · intro r hr
      have h1 : r ∈ sortDescBy (·.updated_at) (db.cases.filter (caseRowMatches u o st)) :=
        ((List.take_sublist _ _).trans (List.drop_sublist _ _)).subset hr
      exact List.mem_of_mem_filter (mem_sortDescBy.mp h1)

/-- C7 (witness): the amended ordering at the concrete two-case store. -/
theorem c7_list_ordering_amended_witness :
    (hybridList c7db none none none 50 0).1.Pairwise
      (fun a b => b.updated_at ≤ a.updated_at) ∧
    (inMemoryList c8mem none none none 50 0).1.Pairwise
      (fun a b => lastActivityKey b ≤ lastActivityKey a) := by
  have h1 := c7_list_ordering_amended c8mem [] c7db none none none 50 0 (by decide)
  exact ⟨h1.2.2, h1.1⟩
